import Mathlib

/-!
Verification of the Dubify semantic-search core.

The development shallowly embeds the two implementations of the search
pipeline found in the repository:

* the in-memory MVP search used by the HTTP route (`performInMemorySearch`,
  `generateSuggestions`, `POST` handler), and
* the vector-index (Qdrant) search service (`searchLocations`, `buildFilter`,
  `calculateDistance`, `generateSearchSuggestions`).

JavaScript numbers are modelled as exact rationals (`ℚ`) for the data and
score pipeline, and as real numbers (`ℝ`) for the trigonometric distance
helper.  JavaScript strings are handled through `List Char` so that every
string operation is structurally recursive and computable.  The external
collaborators (embedding provider, vector index) are passed as function
parameters returning `Except`, following the interface contract in the
design document; the stored location set is likewise a parameter, since the
search functions only consume it through `getAllLocations()` / the index.
Wall-clock time is out of scope, so `queryTimeMs` is modelled as `0`.
-/

/-- Lowercases a character list, modelling JavaScript `toLowerCase` on the
ASCII strings used by the pipeline. -/
def toLowerL (s : List Char) : List Char := s.map Char.toLower

/-- Accumulator-based splitting of a character list at every space,
keeping empty chunks, exactly as JavaScript `split(' ')` does. -/
def splitAux : List Char → List Char → List (List Char)
  | [], acc => [acc.reverse]
  | c :: rest, acc =>
    if c = ' ' then acc.reverse :: splitAux rest [] else splitAux rest (c :: acc)

/-- JavaScript `s.split(' ')` over character lists. -/
def splitOnSpace (s : List Char) : List (List Char) := splitAux s []

/-- Does the second list start with the first one? -/
def headMatches : List Char → List Char → Bool
  | [], _ => true
  | _ :: _, [] => false
  | p :: ps, c :: cs => p == c && headMatches ps cs

/-- Substring containment over character lists, modelling JavaScript
`hay.includes(pat)`. -/
def hasSub (hay pat : List Char) : Bool :=
  match hay with
  | [] => pat.isEmpty
  | _ :: rest => headMatches pat hay || hasSub rest pat

/-- String-level wrapper for `hasSub`, modelling `s.includes(pat)`. -/
def containsStr (s pat : String) : Bool := hasSub s.toList pat.toList

/-- JavaScript `array.join(' ')`. -/
def joinWords : List (List Char) → List Char
  | [] => []
  | [w] => w
  | w :: rest => w ++ ' ' :: joinWords rest

/-- Structured search filters (`SearchFilters` in `lib/types`): every field
optional, absence meaning "no constraint". -/
structure SearchFilters where
  category : Option String := none
  priceRange : Option String := none
  rating : Option ℚ := none
  halalCertified : Option Bool := none
  familyFriendly : Option Bool := none
deriving DecidableEq

/-- A caller-supplied reference point (`userLocation` in `SearchRequest`). -/
structure UserLoc where
  lat : ℚ
  lng : ℚ
deriving DecidableEq

/-- A search request (`SearchRequest` in `lib/types`). -/
structure SearchRequest where
  query : String
  filters : Option SearchFilters := none
  limit : Option Int := none
  userLocation : Option UserLoc := none

/-- A stored location record (`Location` in `lib/types`); `openingHours`
keeps only the string actually consumed by the result mapper. -/
structure Location where
  id : String
  name : String
  description : String
  category : String
  tags : List String
  rating : ℚ
  reviewCount : ℕ
  priceRange : String
  imageUrl : Option String := none
  latitude : ℚ
  longitude : ℚ
  verified : Bool
  halalCertified : Option Bool := none
  familyFriendly : Option Bool := none
  openingHours : Option String := none
  address : Option String := none
deriving DecidableEq

/-- A search hit mapped to the response schema (`SearchResult` in
`lib/types`).  `distance` is a genuinely optional field. -/
structure SearchResult where
  id : String
  name : String
  description : String
  category : String
  tags : List String
  rating : ℚ
  reviewCount : ℕ
  priceRange : String
  similarityScore : ℚ
  distance : Option ℝ := none
  imageUrl : Option String := none
  latitude : ℚ
  longitude : ℚ
  verified : Bool
  halalCertified : Option Bool := none
  familyFriendly : Option Bool := none
  openingHours : Option String := none
  address : Option String := none

/-- The response envelope (`SearchResponse` in `lib/types`). -/
structure SearchResponse where
  results : List SearchResult
  total : ℕ
  queryTimeMs : ℕ
  suggestions : List String

/-- Combined searchable text of a location:
`name description tags.join(' ') category`, lowercased. -/
def searchText (loc : Location) : List Char :=
  toLowerL (loc.name.toList ++ ' ' :: loc.description.toList ++
    ' ' :: joinWords (loc.tags.map String.toList) ++ ' ' :: loc.category.toList)

/-- The same combined text rebuilt from a result's fields (the mapper copies
the four text fields unchanged, so this equals `searchText` of the source
record). -/
def resultSearchText (r : SearchResult) : List Char :=
  toLowerL (r.name.toList ++ ' ' :: r.description.toList ++
    ' ' :: joinWords (r.tags.map String.toList) ++ ' ' :: r.category.toList)

/-- Number of query words occurring in a text, as counted by the
`queryWords.forEach` loop of `performInMemorySearch`. -/
def matchCountOf (queryWords : List (List Char)) (text : List Char) : ℕ :=
  queryWords.countP (fun w => hasSub text w)

/-- Maps one location to a scored search result
(the `.map` stage of `performInMemorySearch`); `mkRat` is exact rational
division, equal to `matchCount / queryWords.length` since the word list is
never empty. -/
def mapLocation (queryWords : List (List Char)) (loc : Location) : SearchResult :=
  { id := loc.id, name := loc.name, description := loc.description,
    category := loc.category, tags := loc.tags, rating := loc.rating,
    reviewCount := loc.reviewCount, priceRange := loc.priceRange,
    similarityScore := mkRat (matchCountOf queryWords (searchText loc)) queryWords.length,
    distance := none, imageUrl := loc.imageUrl, latitude := loc.latitude,
    longitude := loc.longitude, verified := loc.verified,
    halalCertified := loc.halalCertified, familyFriendly := loc.familyFriendly,
    openingHours := loc.openingHours, address := loc.address }

/-- The `.filter` stage of `performInMemorySearch`: each conjunct models one
early `return false`, including the JavaScript truthiness tests
(`filters?.category`, `filters?.rating`) and the `!== undefined` tests for
the two boolean filters. -/
def searchFilterPred (filters : Option SearchFilters) (result : SearchResult) : Bool :=
  !(result.similarityScore == 0) &&
  !(match filters.bind SearchFilters.category with
    | some c => c != "" && result.category != c
    | none => false) &&
  !(match filters.bind SearchFilters.halalCertified with
    | some b => result.halalCertified != some b
    | none => false) &&
  !(match filters.bind SearchFilters.familyFriendly with
    | some b => result.familyFriendly != some b
    | none => false) &&
  !(match filters.bind SearchFilters.rating with
    | some q => q != 0 && decide (result.rating < q)
    | none => false)

/-- Descending-score ordering used by the `.sort` comparator
`(a, b) => b.similarityScore - a.similarityScore`. -/
def scoreGe (a b : SearchResult) : Prop := b.similarityScore ≤ a.similarityScore

instance : DecidableRel scoreGe :=
  fun a b => inferInstanceAs (Decidable (b.similarityScore ≤ a.similarityScore))

instance : IsTotal SearchResult scoreGe :=
  ⟨fun a b => le_total b.similarityScore a.similarityScore⟩

instance : IsTrans SearchResult scoreGe :=
  ⟨fun _ _ _ h1 h2 => le_trans h2 h1⟩

/-- The part_003 suggestion generator `generateSuggestions`. -/
def generateSuggestions (query : String) : List String :=
  let lowercaseQuery := toLowerL query.toList
  if hasSub lowercaseQuery ("romantic".toList) then
    ["romantic dinner spots", "sunset viewing points", "couples activities"]
  else if hasSub lowercaseQuery ("family".toList) then
    ["family restaurants", "kid-friendly attractions", "water parks"]
  else if hasSub lowercaseQuery ("luxury".toList) then
    ["luxury hotels", "fine dining", "high-end shopping"]
  else if hasSub lowercaseQuery ("traditional".toList) then
    ["traditional souks", "cultural museums", "heritage sites"]
  else
    ["top attractions", "best restaurants", "hidden gems"]

/-- The result list built by `performInMemorySearch`: map over all stored
locations, filter, sort descending by score, take the first 10 (the source
slices with `.slice(0, 10)`, a constant — the request limit is not used
here). -/
def inMemoryResults (locations : List Location) (query : String)
    (filters : Option SearchFilters) : List SearchResult :=
  (List.insertionSort scoreGe
     ((locations.map (mapLocation (splitOnSpace (toLowerL query.toList)))).filter
        (searchFilterPred filters))).take 10

/-- The in-memory MVP search (`performInMemorySearch` in the route module).
The stored location list (`getAllLocations()`) is a parameter. -/
def performInMemorySearch (locations : List Location) (query : String)
    (filters : Option SearchFilters) : SearchResponse :=
  { results := inMemoryResults locations query filters,
    total := (inMemoryResults locations query filters).length,
    queryTimeMs := 0,
    suggestions := generateSuggestions query }

/-- A JSON-ish JavaScript value, to model the route's `typeof` and
truthiness validation of the request body. -/
inductive JVal where
  | undef
  | null
  | boolean (b : Bool)
  | number (q : ℚ)
  | str (s : String)
deriving DecidableEq

/-- JavaScript truthiness of a `JVal` (`NaN` is out of the rational model). -/
def jsTruthy : JVal → Bool
  | .undef => false
  | .null => false
  | .boolean b => b
  | .number q => q != 0
  | .str s => s != ""

/-- Models `typeof v === 'string'`. -/
def jsIsString : JVal → Bool
  | .str _ => true
  | _ => false

/-- Extracts the string payload (only applied after validation). -/
def jsStr : JVal → String
  | .str s => s
  | _ => ""

/-- The POST body `{ query, filters?, limit? }` with an untyped query slot. -/
structure RequestBody where
  query : JVal
  filters : Option SearchFilters := none
  limit : Option Int := none

/-- Outcome of the route: HTTP status plus either a response or an error
code, modelling the JSON envelopes built by the handler. -/
inductive RouteOutcome where
  | success (status : ℕ) (data : SearchResponse)
  | failure (status : ℕ) (code : String)

/-- The search route POST handler after the excluded auth and rate-limit
collaborators: validate `body.query`
(`!body.query || typeof body.query !== 'string'` gives 400), then run the
in-memory search on `body.query` and `body.filters`.  `body.limit` is not
consulted anywhere. -/
def searchRoutePOST (locations : List Location) (body : RequestBody) : RouteOutcome :=
  if !(jsTruthy body.query) || !(jsIsString body.query) then
    .failure 400 "INVALID_REQUEST"
  else
    .success 200 (performInMemorySearch locations (jsStr body.query) body.filters)

/-- One condition of a Qdrant filter: an equality `match` clause or a
`range: gte` clause on a payload attribute. -/
inductive FilterCond where
  | matchString (key : String) (value : String)
  | matchBoolean (key : String) (value : Bool)
  | rangeGte (key : String) (value : ℚ)
deriving DecidableEq

/-- The filter builder of `searchLocations`: pushes one `must` clause per
present filter field, in source order.  `category` and `rating` go through
JavaScript truthiness (`if (request.filters?.category)`,
`if (request.filters?.rating)`), while the two boolean fields are tested
with `!== undefined`. -/
def buildFilter (filters : Option SearchFilters) : List FilterCond :=
  (match filters.bind SearchFilters.category with
   | some c => if c ≠ "" then [FilterCond.matchString "category" c] else []
   | none => []) ++
  (match filters.bind SearchFilters.halalCertified with
   | some b => [FilterCond.matchBoolean "halalCertified" b]
   | none => []) ++
  (match filters.bind SearchFilters.familyFriendly with
   | some b => [FilterCond.matchBoolean "familyFriendly" b]
   | none => []) ++
  (match filters.bind SearchFilters.rating with
   | some q => if q ≠ 0 then [FilterCond.rangeGte "rating" q] else []
   | none => [])

/-- JavaScript `v || d` on an optional integer (`request.limit || 10`):
an absent or zero value falls back to the default. -/
def jsOrInt (v : Option Int) (d : Int) : Int :=
  match v with
  | some n => if n = 0 then d else n
  | none => d

/-- The limit passed to the index query: `request.limit || 10`. -/
def limitOf (req : SearchRequest) : Int := jsOrInt req.limit 10

/-- The filter argument passed to the index query:
`filter.must.length > 0 ? filter : undefined`. -/
def filterArgOf (req : SearchRequest) : Option (List FilterCond) :=
  if (buildFilter req.filters).length > 0 then some (buildFilter req.filters) else none

/-- A raw hit returned by the vector index: identifier (already stringified,
as in `hit.id.toString()`), cosine similarity score, stored payload. -/
structure Hit where
  id : String
  score : ℚ
  payload : Location

/-- Degrees to radians (`toRad`). -/
noncomputable def toRad (degrees : ℝ) : ℝ := degrees * Real.pi / 180

/-- JavaScript `Math.atan2(y, x)`. -/
noncomputable def atan2 (y x : ℝ) : ℝ :=
  if 0 < x then Real.arctan (y / x)
  else if x < 0 then
    (if 0 ≤ y then Real.arctan (y / x) + Real.pi else Real.arctan (y / x) - Real.pi)
  else
    (if 0 < y then Real.pi / 2 else if y < 0 then -(Real.pi / 2) else 0)

/-- The haversine term `a` computed by `calculateDistance`. -/
noncomputable def haversineA (lat1 lon1 lat2 lon2 : ℝ) : ℝ :=
  Real.sin (toRad (lat2 - lat1) / 2) * Real.sin (toRad (lat2 - lat1) / 2) +
    Real.cos (toRad lat1) * Real.cos (toRad lat2) *
      (Real.sin (toRad (lon2 - lon1) / 2) * Real.sin (toRad (lon2 - lon1) / 2))

/-- JavaScript `Math.round(x * 10) / 10` (rounding halves toward plus
infinity, as `round` does). -/
noncomputable def round1 (x : ℝ) : ℝ := ((round (x * 10) : ℤ) : ℝ) / 10

/-- The distance helper `calculateDistance`: haversine formula with Earth
radius 6371 km, result rounded to 1 decimal place. -/
noncomputable def calculateDistance (lat1 lon1 lat2 lon2 : ℝ) : ℝ :=
  round1 (6371 *
    (2 * atan2 (Real.sqrt (haversineA lat1 lon1 lat2 lon2))
      (Real.sqrt (1 - haversineA lat1 lon1 lat2 lon2))))

/-- The great-circle distance as the specification states it — Haversine
formula with Earth radius 6371 km in its arcsine form — written from the
spec's words to compare against the code's arctangent variant. -/
noncomputable def haversineSpecDist (lat1 lon1 lat2 lon2 : ℝ) : ℝ :=
  2 * 6371 * Real.arcsin (Real.sqrt (haversineA lat1 lon1 lat2 lon2))

/-- The hit-to-result mapper inside `searchLocations`, including the
distance augmentation guard
`if (request.userLocation && payload.latitude && payload.longitude)` —
number truthiness, i.e. the coordinates must be nonzero. -/
noncomputable def mapHit (userLocation : Option UserLoc) (hit : Hit) : SearchResult :=
  let p := hit.payload
  let dist : Option ℝ :=
    match userLocation with
    | some ul =>
      if p.latitude ≠ 0 ∧ p.longitude ≠ 0 then
        some (calculateDistance (ul.lat : ℝ) (ul.lng : ℝ) (p.latitude : ℝ) (p.longitude : ℝ))
      else none
    | none => none
  { id := hit.id, name := p.name, description := p.description,
    category := p.category, tags := p.tags, rating := p.rating,
    reviewCount := p.reviewCount, priceRange := p.priceRange,
    similarityScore := hit.score, distance := dist, imageUrl := p.imageUrl,
    latitude := p.latitude, longitude := p.longitude, verified := p.verified,
    halalCertified := p.halalCertified, familyFriendly := p.familyFriendly,
    openingHours := p.openingHours, address := p.address }

/-- The part_005 suggestion generator `generateSearchSuggestions`. -/
def generateSearchSuggestions (query : String) : List String :=
  let lowercaseQuery := toLowerL query.toList
  if hasSub lowercaseQuery ("romantic".toList) || hasSub lowercaseQuery ("sunset".toList) then
    ["romantic dinner with view", "sunset beach spots", "couples activities Dubai"]
  else if hasSub lowercaseQuery ("family".toList) || hasSub lowercaseQuery ("kids".toList) then
    ["family-friendly attractions", "water parks Dubai", "kid-friendly restaurants"]
  else if hasSub lowercaseQuery ("luxury".toList) || hasSub lowercaseQuery ("expensive".toList) then
    ["luxury shopping malls", "fine dining Dubai", "5-star experiences"]
  else if hasSub lowercaseQuery ("cheap".toList) || hasSub lowercaseQuery ("budget".toList) then
    ["budget-friendly activities", "affordable restaurants", "free attractions Dubai"]
  else
    ["traditional souks", "modern attractions", "beach activities"]

/-- The vector-index search orchestrator `searchLocations`.  The embedding
provider and the vector index are the two external calls, passed as
`Except`-returning functions; any failure is rethrown unchanged by the
`catch` block, so the `Except` propagation is the whole error behavior. -/
noncomputable def searchLocations
    (embed : String → Except String (List ℚ))
    (idx : List ℚ → Option (List FilterCond) → Int → Except String (List Hit))
    (req : SearchRequest) : Except String SearchResponse :=
  match embed req.query with
  | .error e => .error e
  | .ok vec =>
    match idx vec (filterArgOf req) (limitOf req) with
    | .error e => .error e
    | .ok hits =>
      let results := hits.map (mapHit req.userLocation)
      .ok { results := results, total := results.length, queryTimeMs := 0,
            suggestions := generateSearchSuggestions req.query }

/-! ### Helper lemmas -/

/-- The accumulator splitter always returns at least one chunk. -/
theorem splitAux_length_pos (s : List Char) : ∀ acc, 0 < (splitAux s acc).length := by
  induction s with
  | nil => intro acc; simp [splitAux]
  | cons c rest ih =>
    intro acc
    simp only [splitAux]
    split
    · simp
    · exact ih _

/-- JavaScript `split` never yields an empty array. -/
theorem splitOnSpace_length_pos (s : List Char) : 0 < (splitOnSpace s).length :=
  splitAux_length_pos s []

/-- The keyword-match score is nonnegative. -/
theorem score_nonneg (c n : ℕ) : 0 ≤ mkRat c n := by
  rw [Rat.mkRat_eq_div]
  positivity

/-- The keyword-match score is at most one when at most every word matches. -/
theorem score_le_one {c n : ℕ} (h : c ≤ n) (hn : 0 < n) : mkRat c n ≤ 1 := by
  rw [Rat.mkRat_eq_div, div_le_one (by exact_mod_cast hn)]
  exact_mod_cast h

/-- With a positive denominator the score vanishes exactly when no word
matched. -/
theorem score_eq_zero_iff {c n : ℕ} (hn : 0 < n) : mkRat c n = 0 ↔ c = 0 := by
  rw [Rat.mkRat_eq_div, div_eq_zero_iff]
  constructor
  · rintro (h | h)
    · exact_mod_cast h
    · exact absurd h (by exact_mod_cast hn.ne')
  · intro h
    exact Or.inl (by exact_mod_cast h)

/-- Structure of a returned in-memory result: it passed the filter stage and
is the image of some stored location under the score mapper. -/
theorem mem_inMemoryResults {L : List Location} {q : String}
    {f : Option SearchFilters} {r : SearchResult}
    (hr : r ∈ inMemoryResults L q f) :
    searchFilterPred f r = true ∧
    ∃ loc ∈ L, r = mapLocation (splitOnSpace (toLowerL q.toList)) loc := by
  have h1 : r ∈ List.insertionSort scoreGe
      ((L.map (mapLocation (splitOnSpace (toLowerL q.toList)))).filter
        (searchFilterPred f)) :=
    List.take_subset _ _ hr
  have h2 := (List.perm_insertionSort scoreGe _).mem_iff.mp h1
  have h3 := List.mem_filter.mp h2
  obtain ⟨loc, hloc, heq⟩ := List.mem_map.mp h3.1
  exact ⟨h3.2, loc, hloc, heq.symm⟩

/-- The in-memory result list is sorted descending by similarity score. -/
theorem inMemoryResults_sorted (L : List Location) (q : String)
    (f : Option SearchFilters) :
    (inMemoryResults L q f).Sorted scoreGe :=
  List.Pairwise.sublist (List.take_sublist _ _) (List.sorted_insertionSort scoreGe _)

/-- Projection of the response envelope onto its result list. -/
theorem performInMemorySearch_results (L : List Location) (q : String)
    (f : Option SearchFilters) :
    (performInMemorySearch L q f).results = inMemoryResults L q f := rfl

/-! ### C1 — explicit-false boolean filtering -/

/-- C1: when `halalCertified` is present (explicit `false` included) the
filter builder adds an equality constraint on the `halalCertified`
attribute, and absence adds none; `familyFriendly` follows the same rule;
and in the in-memory path every returned result carries exactly the
requested boolean value — in particular `halalCertified = false` requests
only return results with `halalCertified = false`. -/
theorem c1_explicit_false_boolean_filtering (filters : Option SearchFilters) :
    (∀ b, Option.bind filters SearchFilters.halalCertified = some b →
       FilterCond.matchBoolean "halalCertified" b ∈ buildFilter filters) ∧
    (Option.bind filters SearchFilters.halalCertified = none →
       ∀ b, FilterCond.matchBoolean "halalCertified" b ∉ buildFilter filters) ∧
    (∀ b, Option.bind filters SearchFilters.familyFriendly = some b →
       FilterCond.matchBoolean "familyFriendly" b ∈ buildFilter filters) ∧
    (Option.bind filters SearchFilters.familyFriendly = none →
       ∀ b, FilterCond.matchBoolean "familyFriendly" b ∉ buildFilter filters) ∧
    (∀ f b L q, filters = some f → f.halalCertified = some b →
       ∀ r ∈ (performInMemorySearch L q filters).results, r.halalCertified = some b) ∧
    (∀ f b L q, filters = some f → f.familyFriendly = some b →
       ∀ r ∈ (performInMemorySearch L q filters).results, r.familyFriendly = some b) := by
  refine ⟨?_, ?_, ?_, ?_, ?_, ?_⟩
  · intro b h
    simp [buildFilter, h]
  · intro h b
    rcases hc : Option.bind filters SearchFilters.category with _ | c <;>
      rcases hf : Option.bind filters SearchFilters.familyFriendly with _ | fb <;>
        rcases hq : Option.bind filters SearchFilters.rating with _ | q <;>
          simp [buildFilter, h, hc, hf, hq]
  · intro b h
    simp [buildFilter, h]
  · intro h b
    rcases hc : Option.bind filters SearchFilters.category with _ | c <;>
      rcases hh : Option.bind filters SearchFilters.halalCertified with _ | hb <;>
        rcases hq : Option.bind filters SearchFilters.rating with _ | q <;>
          simp [buildFilter, h, hc, hh, hq]
  · intro f b L q hfil hb r hr
    rw [performInMemorySearch_results] at hr
    obtain ⟨hpred, loc, hloc, heq⟩ := mem_inMemoryResults hr
    subst hfil
    simp only [searchFilterPred, Option.bind, hb, Bool.and_eq_true,
      Bool.not_eq_true', bne_eq_false_iff_eq] at hpred
    exact hpred.1.1.2
  · intro f b L q hfil hb r hr
    rw [performInMemorySearch_results] at hr
    obtain ⟨hpred, loc, hloc, heq⟩ := mem_inMemoryResults hr
    subst hfil
    simp only [searchFilterPred, Option.bind, hb, Bool.and_eq_true,
      Bool.not_eq_true', bne_eq_false_iff_eq] at hpred
    exact hpred.1.2

/-- Fixture for the C1 witness: a stored location that is explicitly not
halal-certified. -/
def c1Loc : Location :=
  { id := "h1", name := "halal grill", description := "food", category := "restaurant",
    tags := [], rating := 4, reviewCount := 10, priceRange := "$$",
    latitude := 25, longitude := 55, verified := true,
    halalCertified := some false, familyFriendly := some true }

/-- C1 witness: with the explicit-false filter the constraint is built, and
the concrete returned result indeed has `halalCertified = some false`. -/
theorem c1_witness :
    FilterCond.matchBoolean "halalCertified" false ∈
      buildFilter (some { halalCertified := some false }) ∧
    (mapLocation (splitOnSpace (toLowerL ("halal".toList))) c1Loc).halalCertified
      = some false := by
  constructor
  · exact (c1_explicit_false_boolean_filtering _).1 false rfl
  · have h : (performInMemorySearch [c1Loc] "halal"
        (some { halalCertified := some false })).results
        = [mapLocation (splitOnSpace (toLowerL ("halal".toList))) c1Loc] := rfl
    exact (c1_explicit_false_boolean_filtering _).2.2.2.2.1 _ false [c1Loc] "halal"
      rfl rfl _ (h ▸ List.mem_singleton.mpr rfl)

/-! ### C6 — rating filter -/

/-- Fixture for the C6 counterexample: a stored location with a negative
rating whose text matches the query. -/
def c6Loc : Location :=
  { id := "c6", name := "x corner", description := "d", category := "misc",
    tags := [], rating := -1, reviewCount := 0, priceRange := "$",
    latitude := 1, longitude := 1, verified := false }

/-- C6 counterexample: `rating` goes through JavaScript truthiness, so the
explicit value `0` adds no constraint at all, and the in-memory search then
returns a matching location whose stored rating is negative — the claim
"whenever `filters.rating` is present a range constraint is applied so that
every returned result has rating ≥ the requested rating" fails at
`rating = 0`. -/
theorem c6_counterexample :
    buildFilter (some { rating := some 0 }) = [] ∧
    ((performInMemorySearch [c6Loc] "x" (some { rating := some 0 })).results.map
       SearchResult.rating) = [-1] ∧
    ¬ (0 : ℚ) ≤ (-1 : ℚ) := by
  refine ⟨by decide, rfl, by decide⟩

/-- C6 amended: whenever `filters.rating` is present and nonzero (a truthy
number), the builder emits the inclusive lower-bound range constraint and
every in-memory result has rating ≥ the requested rating; `rating: 0` is
treated as unset. -/
theorem c6_rating_filter_amended (filters : Option SearchFilters)
    (f : SearchFilters) (q0 : ℚ)
    (hfil : filters = some f) (hr : f.rating = some q0) (hq : q0 ≠ 0) :
    FilterCond.rangeGte "rating" q0 ∈ buildFilter filters ∧
    ∀ L qs r, r ∈ (performInMemorySearch L qs filters).results → q0 ≤ r.rating := by
  constructor
  · subst hfil
    simp [buildFilter, Option.bind, hr, hq]
  · intro L qs r hmem
    rw [performInMemorySearch_results] at hmem
    obtain ⟨hpred, loc, hloc, heq⟩ := mem_inMemoryResults hmem
    subst hfil
    simp only [searchFilterPred, Option.bind, hr, Bool.and_eq_true,
      Bool.not_eq_true'] at hpred
    have h5 := hpred.2
    rw [Bool.and_eq_false_iff] at h5
    rcases h5 with h5 | h5
    · exact absurd (by simpa using h5) hq
    · simpa using le_of_not_lt (by simpa using h5)

/-- C6 witness: the amended theorem at the spec's example threshold 4.5. -/
theorem c6_witness :
    FilterCond.rangeGte "rating" (9 / 2) ∈
      buildFilter (some { rating := some (9 / 2) }) ∧
    ∀ L qs r, r ∈ (performInMemorySearch L qs (some { rating := some (9 / 2) })).results →
      (9 / 2 : ℚ) ≤ r.rating :=
  c6_rating_filter_amended _ _ _ rfl rfl (by norm_num)

/-! ### C8 — boundary validation -/

/-- Fixture for the C8 counterexample: a valid stored location. -/
def c8Loc : Location :=
  { id := "b1", name := "beach bar", description := "sands", category := "bar",
    tags := [], rating := 4, reviewCount := 5, priceRange := "$$",
    latitude := 25, longitude := 55, verified := true }

/-- Fixture for the C8 counterexample: a body with a valid query and a
non-positive limit. -/
def c8Body : RequestBody :=
  { query := JVal.str "beach", filters := none, limit := some (-5) }

/-- C8 counterexample: a request with a valid query but `limit = -5` is not
rejected — the handler never validates `limit`, answers 200, and the core
pipeline runs; the claim that `limit ≤ 0` is rejected with 400 fails. -/
theorem c8_counterexample :
    searchRoutePOST [c8Loc] c8Body =
      RouteOutcome.success 200 (performInMemorySearch [c8Loc] "beach" none) ∧
    searchRoutePOST [c8Loc] c8Body ≠
      RouteOutcome.failure 400 "INVALID_REQUEST" := by
  constructor
  · rfl
  · intro hcon
    rw [show searchRoutePOST [c8Loc] c8Body =
      RouteOutcome.success 200 (performInMemorySearch [c8Loc] "beach" none)
      from rfl] at hcon
    exact RouteOutcome.noConfusion hcon

/-- C8 amended: a request whose query is missing, falsy (e.g. empty), or
not a string is rejected at the boundary with 400 `INVALID_REQUEST` and the
search pipeline is never reached; the `limit` field is not validated. -/
theorem c8_query_validation_amended (L : List Location) (body : RequestBody)
    (h : jsTruthy body.query = false ∨ jsIsString body.query = false) :
    searchRoutePOST L body = RouteOutcome.failure 400 "INVALID_REQUEST" := by
  rcases h with h | h <;> simp [searchRoutePOST, h]

/-- C8 witness: a numeric query is rejected with 400. -/
theorem c8_witness :
    searchRoutePOST [] { query := JVal.number 5 } =
      RouteOutcome.failure 400 "INVALID_REQUEST" :=
  c8_query_validation_amended [] _ (Or.inr rfl)

/-! ### C2 — limit and total -/

/-- Fixture for the C2 counterexample: first of two stored locations
matching the query. -/
def c2LocA : Location :=
  { id := "a", name := "beach one", description := "sunny", category := "beach",
    tags := [], rating := 5, reviewCount := 1, priceRange := "$",
    latitude := 25, longitude := 55, verified := true }

/-- Fixture for the C2 counterexample: second matching stored location. -/
def c2LocB : Location :=
  { id := "b", name := "beach two", description := "calm", category := "beach",
    tags := [], rating := 4, reviewCount := 2, priceRange := "$",
    latitude := 25, longitude := 55, verified := true }

/-- Fixture for the C2 counterexample: a valid request with `limit = 1`. -/
def c2Body : RequestBody :=
  { query := JVal.str "beach", filters := none, limit := some 1 }

/-- C2 counterexample: the route serves `limit = 1` through the in-memory
search, which ignores the request limit and slices at the constant 10, so
two results come back — `results.length ≤ request.limit` fails. -/
theorem c2_counterexample :
    searchRoutePOST [c2LocA, c2LocB] c2Body =
      RouteOutcome.success 200 (performInMemorySearch [c2LocA, c2LocB] "beach" none) ∧
    (performInMemorySearch [c2LocA, c2LocB] "beach" none).results.length = 2 ∧
    ¬ ((performInMemorySearch [c2LocA, c2LocB] "beach" none).results.length ≤ 1) := by
  refine ⟨rfl, rfl, by decide⟩

/-- C2 amended: `total` always equals `results.length`; the in-memory path
returns at most 10 results (its hard-coded slice) but ignores
`request.limit`; the vector-index path honors `request.limit || 10`
provided the index returns at most the requested number of hits. -/
theorem c2_total_and_limit_amended :
    (∀ L q f,
       (performInMemorySearch L q f).total = (performInMemorySearch L q f).results.length ∧
       (performInMemorySearch L q f).results.length ≤ 10) ∧
    (∀ embed idx req vec hits resp,
       embed req.query = Except.ok vec →
       idx vec (filterArgOf req) (limitOf req) = Except.ok hits →
       (hits.length : ℤ) ≤ limitOf req →
       searchLocations embed idx req = Except.ok resp →
       resp.total = resp.results.length ∧ (resp.results.length : ℤ) ≤ limitOf req) := by
  constructor
  · intro L q f
    refine ⟨rfl, ?_⟩
    rw [performInMemorySearch_results, inMemoryResults]
    exact List.length_take_le 10 _
  · intro embed idx req vec hits resp h1 h2 hlen h4
    simp only [searchLocations, h1, h2, Except.ok.injEq] at h4
    subst h4
    refine ⟨rfl, ?_⟩
    simpa using hlen

/-- Fixture for the C2 witness: the response of the stubbed index path. -/
def c2Resp : SearchResponse :=
  { results := [], total := 0, queryTimeMs := 0,
    suggestions := generateSearchSuggestions "q" }

/-- C2 witness: the amended bounds at concrete inputs, for both the
in-memory path and the stubbed vector-index path. -/
theorem c2_witness :
    (performInMemorySearch [c2LocA] "beach" none).total =
      (performInMemorySearch [c2LocA] "beach" none).results.length ∧
    (performInMemorySearch [c2LocA] "beach" none).results.length ≤ 10 ∧
    c2Resp.total = c2Resp.results.length ∧
    (c2Resp.results.length : ℤ) ≤ limitOf { query := "q" } := by
  have h1 := c2_total_and_limit_amended.1 [c2LocA] "beach" none
  have h2 := c2_total_and_limit_amended.2 (fun _ => Except.ok [])
    (fun _ _ _ => Except.ok []) { query := "q" } [] [] c2Resp rfl rfl (by decide) rfl
  exact ⟨h1.1, h1.2, h2.1, h2.2⟩

/-! ### C4 — suggestion generator -/

/-- C4: both suggestion generators are pure functions returning exactly 3
suggestions; `generateSearchSuggestions` returns exactly one of its five
fixed sets according to the full keyword table evaluated in priority order
with the first matching theme winning — romantic/sunset, then family/kids,
then luxury/expensive, then cheap/budget — and a query matching no theme,
such as `"x"`, yields each generator's generic nonempty default set. -/
theorem c4_suggestion_generator :
    (∀ q : String,
       (generateSearchSuggestions q).length = 3 ∧
       (generateSuggestions q).length = 3 ∧
       (generateSearchSuggestions q =
          ["romantic dinner with view", "sunset beach spots", "couples activities Dubai"] ∨
        generateSearchSuggestions q =
          ["family-friendly attractions", "water parks Dubai", "kid-friendly restaurants"] ∨
        generateSearchSuggestions q =
          ["luxury shopping malls", "fine dining Dubai", "5-star experiences"] ∨
        generateSearchSuggestions q =
          ["budget-friendly activities", "affordable restaurants", "free attractions Dubai"] ∨
        generateSearchSuggestions q =
          ["traditional souks", "modern attractions", "beach activities"]) ∧
       ((hasSub (toLowerL q.toList) ("romantic".toList) = true ∨
         hasSub (toLowerL q.toList) ("sunset".toList) = true) →
        generateSearchSuggestions q =
          ["romantic dinner with view", "sunset beach spots", "couples activities Dubai"]) ∧
       (hasSub (toLowerL q.toList) ("romantic".toList) = false →
        hasSub (toLowerL q.toList) ("sunset".toList) = false →
        (hasSub (toLowerL q.toList) ("family".toList) = true ∨
         hasSub (toLowerL q.toList) ("kids".toList) = true) →
        generateSearchSuggestions q =
          ["family-friendly attractions", "water parks Dubai", "kid-friendly restaurants"]) ∧
       (hasSub (toLowerL q.toList) ("romantic".toList) = false →
        hasSub (toLowerL q.toList) ("sunset".toList) = false →
        hasSub (toLowerL q.toList) ("family".toList) = false →
        hasSub (toLowerL q.toList) ("kids".toList) = false →
        (hasSub (toLowerL q.toList) ("luxury".toList) = true ∨
         hasSub (toLowerL q.toList) ("expensive".toList) = true) →
        generateSearchSuggestions q =
          ["luxury shopping malls", "fine dining Dubai", "5-star experiences"]) ∧
       (hasSub (toLowerL q.toList) ("romantic".toList) = false →
        hasSub (toLowerL q.toList) ("sunset".toList) = false →
        hasSub (toLowerL q.toList) ("family".toList) = false →
        hasSub (toLowerL q.toList) ("kids".toList) = false →
        hasSub (toLowerL q.toList) ("luxury".toList) = false →
        hasSub (toLowerL q.toList) ("expensive".toList) = false →
        (hasSub (toLowerL q.toList) ("cheap".toList) = true ∨
         hasSub (toLowerL q.toList) ("budget".toList) = true) →
        generateSearchSuggestions q =
          ["budget-friendly activities", "affordable restaurants", "free attractions Dubai"]) ∧
       (hasSub (toLowerL q.toList) ("romantic".toList) = false →
        hasSub (toLowerL q.toList) ("sunset".toList) = false →
        hasSub (toLowerL q.toList) ("family".toList) = false →
        hasSub (toLowerL q.toList) ("kids".toList) = false →
        hasSub (toLowerL q.toList) ("luxury".toList) = false →
        hasSub (toLowerL q.toList) ("expensive".toList) = false →
        hasSub (toLowerL q.toList) ("cheap".toList) = false →
        hasSub (toLowerL q.toList) ("budget".toList) = false →
        generateSearchSuggestions q =
          ["traditional souks", "modern attractions", "beach activities"])) ∧
    generateSearchSuggestions "x" = ["traditional souks", "modern attractions", "beach activities"] ∧
    generateSuggestions "x" = ["top attractions", "best restaurants", "hidden gems"] := by
  refine ⟨?_, by decide, by decide⟩
  intro q
  refine ⟨?_, ?_, ?_, ?_, ?_, ?_, ?_, ?_⟩
  · simp only [generateSearchSuggestions]
    split_ifs <;> rfl
  · simp only [generateSuggestions]
    split_ifs <;> rfl
  · simp only [generateSearchSuggestions]
    split_ifs <;> simp
  · intro h
    have hcond : (hasSub (toLowerL q.toList) ("romantic".toList) ||
        hasSub (toLowerL q.toList) ("sunset".toList)) = true := by
      rcases h with h | h
      · rw [h, Bool.true_or]
      · rw [h, Bool.or_true]
    simp only [generateSearchSuggestions]
    rw [if_pos hcond]
  · intro h1 h2 h3
    have hc1 : (hasSub (toLowerL q.toList) ("romantic".toList) ||
        hasSub (toLowerL q.toList) ("sunset".toList)) = false := by rw [h1, h2]; rfl
    have hc2 : (hasSub (toLowerL q.toList) ("family".toList) ||
        hasSub (toLowerL q.toList) ("kids".toList)) = true := by
      rcases h3 with h | h
      · rw [h, Bool.true_or]
      · rw [h, Bool.or_true]
    simp only [generateSearchSuggestions]
    rw [if_neg (by rw [hc1]; exact Bool.false_ne_true), if_pos hc2]
  · intro h1 h2 h3 h4 h5
    have hc1 : (hasSub (toLowerL q.toList) ("romantic".toList) ||
        hasSub (toLowerL q.toList) ("sunset".toList)) = false := by rw [h1, h2]; rfl
    have hc2 : (hasSub (toLowerL q.toList) ("family".toList) ||
        hasSub (toLowerL q.toList) ("kids".toList)) = false := by rw [h3, h4]; rfl
    have hc3 : (hasSub (toLowerL q.toList) ("luxury".toList) ||
        hasSub (toLowerL q.toList) ("expensive".toList)) = true := by
      rcases h5 with h | h
      · rw [h, Bool.true_or]
      · rw [h, Bool.or_true]
    simp only [generateSearchSuggestions]
    rw [if_neg (by rw [hc1]; exact Bool.false_ne_true),
      if_neg (by rw [hc2]; exact Bool.false_ne_true), if_pos hc3]
  · intro h1 h2 h3 h4 h5 h6 h7
    have hc1 : (hasSub (toLowerL q.toList) ("romantic".toList) ||
        hasSub (toLowerL q.toList) ("sunset".toList)) = false := by rw [h1, h2]; rfl
    have hc2 : (hasSub (toLowerL q.toList) ("family".toList) ||
        hasSub (toLowerL q.toList) ("kids".toList)) = false := by rw [h3, h4]; rfl
    have hc3 : (hasSub (toLowerL q.toList) ("luxury".toList) ||
        hasSub (toLowerL q.toList) ("expensive".toList)) = false := by rw [h5, h6]; rfl
    have hc4 : (hasSub (toLowerL q.toList) ("cheap".toList) ||
        hasSub (toLowerL q.toList) ("budget".toList)) = true := by
      rcases h7 with h | h
      · rw [h, Bool.true_or]
      · rw [h, Bool.or_true]
    simp only [generateSearchSuggestions]
    rw [if_neg (by rw [hc1]; exact Bool.false_ne_true),
      if_neg (by rw [hc2]; exact Bool.false_ne_true),
      if_neg (by rw [hc3]; exact Bool.false_ne_true), if_pos hc4]
  · intro h1 h2 h3 h4 h5 h6 h7 h8
    have hc1 : (hasSub (toLowerL q.toList) ("romantic".toList) ||
        hasSub (toLowerL q.toList) ("sunset".toList)) = false := by rw [h1, h2]; rfl
    have hc2 : (hasSub (toLowerL q.toList) ("family".toList) ||
        hasSub (toLowerL q.toList) ("kids".toList)) = false := by rw [h3, h4]; rfl
    have hc3 : (hasSub (toLowerL q.toList) ("luxury".toList) ||
        hasSub (toLowerL q.toList) ("expensive".toList)) = false := by rw [h5, h6]; rfl
    have hc4 : (hasSub (toLowerL q.toList) ("cheap".toList) ||
        hasSub (toLowerL q.toList) ("budget".toList)) = false := by rw [h7, h8]; rfl
    simp only [generateSearchSuggestions]
    rw [if_neg (by rw [hc1]; exact Bool.false_ne_true),
      if_neg (by rw [hc2]; exact Bool.false_ne_true),
      if_neg (by rw [hc3]; exact Bool.false_ne_true),
      if_neg (by rw [hc4]; exact Bool.false_ne_true)]

/-- C4 witness: a query matching both the romantic and the family theme
gets the romantic set (the first matching theme in priority order wins),
a kids query gets the family set, an expensive query the luxury set, and a
budget query the budget set. -/
theorem c4_witness :
    generateSearchSuggestions "Family romantic trip" =
      ["romantic dinner with view", "sunset beach spots", "couples activities Dubai"] ∧
    generateSearchSuggestions "kids party" =
      ["family-friendly attractions", "water parks Dubai", "kid-friendly restaurants"] ∧
    generateSearchSuggestions "expensive gifts" =
      ["luxury shopping malls", "fine dining Dubai", "5-star experiences"] ∧
    generateSearchSuggestions "budget eats" =
      ["budget-friendly activities", "affordable restaurants", "free attractions Dubai"] := by
  refine ⟨?_, ?_, ?_, ?_⟩
  · exact (c4_suggestion_generator.1 "Family romantic trip").2.2.2.1 (Or.inl (by decide))
  · exact (c4_suggestion_generator.1 "kids party").2.2.2.2.1 (by decide) (by decide)
      (Or.inr (by decide))
  · exact (c4_suggestion_generator.1 "expensive gifts").2.2.2.2.2.1 (by decide) (by decide)
      (by decide) (by decide) (Or.inr (by decide))
  · exact (c4_suggestion_generator.1 "budget eats").2.2.2.2.2.2.1 (by decide) (by decide)
      (by decide) (by decide) (by decide) (by decide) (Or.inr (by decide))

/-! ### C5 — score bounds and descending order -/

/-- C5: every in-memory result's similarity score lies in `[0, 1]` and the
result list is sorted descending by score; the vector-index path preserves
both properties of the hits delivered by the index (whose interface
contract promises cosine scores in `[0, 1]`, best first). -/
theorem c5_scores_bounded_and_sorted :
    (∀ L q f,
       (∀ r ∈ (performInMemorySearch L q f).results,
          0 ≤ r.similarityScore ∧ r.similarityScore ≤ 1) ∧
       ((performInMemorySearch L q f).results).Sorted scoreGe) ∧
    (∀ embed idx req vec hits resp,
       embed req.query = Except.ok vec →
       idx vec (filterArgOf req) (limitOf req) = Except.ok hits →
       (∀ h ∈ hits, 0 ≤ h.score ∧ h.score ≤ 1) →
       hits.Pairwise (fun h1 h2 => h2.score ≤ h1.score) →
       searchLocations embed idx req = Except.ok resp →
       (∀ r ∈ resp.results, 0 ≤ r.similarityScore ∧ r.similarityScore ≤ 1) ∧
       resp.results.Sorted scoreGe) := by
  constructor
  · intro L q f
    constructor
    · intro r hr
      rw [performInMemorySearch_results] at hr
      obtain ⟨hpred, loc, hloc, heq⟩ := mem_inMemoryResults hr
      subst heq
      exact ⟨score_nonneg _ _,
        score_le_one (List.countP_le_length _) (splitOnSpace_length_pos _)⟩
    · rw [performInMemorySearch_results]
      exact inMemoryResults_sorted L q f
  · intro embed idx req vec hits resp h1 h2 hbnd hsort h4
    simp only [searchLocations, h1, h2, Except.ok.injEq] at h4
    subst h4
    constructor
    · intro r hr
      obtain ⟨h, hh, heq⟩ := List.mem_map.mp hr
      subst heq
      exact hbnd h hh
    · exact List.Pairwise.map _ (fun a b hab => hab) hsort

/-- Fixture for the C5 witness: a stored location matching the query. -/
def c5Loc : Location :=
  { id := "s", name := "spa resort", description := "relax", category := "spa",
    tags := [], rating := 5, reviewCount := 3, priceRange := "$$$",
    latitude := 25, longitude := 55, verified := true }

/-- Fixture for the C5 witness: the result the in-memory search returns. -/
def c5Res : SearchResult := mapLocation (splitOnSpace (toLowerL ("spa".toList))) c5Loc

/-- Fixture for the C5 witness: a hit as delivered by the index. -/
def c5Hit : Hit := { id := "1", score := mkRat 9 10, payload := c5Loc }

/-- Fixture for the C5 witness: the corresponding stubbed index response. -/
noncomputable def c5Resp : SearchResponse :=
  { results := [mapHit none c5Hit], total := 1, queryTimeMs := 0,
    suggestions := generateSearchSuggestions "spa" }

/-- C5 witness: the score bounds and sortedness at concrete inputs on both
paths. -/
theorem c5_witness :
    (0 ≤ c5Res.similarityScore ∧ c5Res.similarityScore ≤ 1) ∧
    ((performInMemorySearch [c5Loc] "spa" none).results).Sorted scoreGe ∧
    (0 ≤ (mapHit none c5Hit).similarityScore ∧ (mapHit none c5Hit).similarityScore ≤ 1) ∧
    c5Resp.results.Sorted scoreGe := by
  have h1 := c5_scores_bounded_and_sorted.1 [c5Loc] "spa" none
  have h2 := c5_scores_bounded_and_sorted.2 (fun _ => Except.ok [])
    (fun _ _ _ => Except.ok [c5Hit]) { query := "spa" } [] [c5Hit] c5Resp rfl rfl
    (by intro h hh; rw [List.mem_singleton.mp hh]; exact ⟨by decide, by decide⟩)
    (List.pairwise_singleton _ _) rfl
  refine ⟨?_, h1.2, ?_, h2.2⟩
  · refine h1.1 c5Res ?_
    rw [show (performInMemorySearch [c5Loc] "spa" none).results = [c5Res] from rfl]
    exact List.mem_singleton.mpr rfl
  · exact h2.1 (mapHit none c5Hit) (List.mem_singleton.mpr rfl)

/-! ### C7 — failure atomicity -/

/-- C7: a failure of the embedding call or of the index call propagates
unchanged out of `searchLocations` — the call produces no `SearchResponse`
at all, no partial results and no retry (the `catch` block rethrows). -/
theorem c7_failure_atomicity (embed : String → Except String (List ℚ))
    (idx : List ℚ → Option (List FilterCond) → Int → Except String (List Hit))
    (req : SearchRequest) :
    (∀ e, embed req.query = Except.error e →
       searchLocations embed idx req = Except.error e) ∧
    (∀ vec e, embed req.query = Except.ok vec →
       idx vec (filterArgOf req) (limitOf req) = Except.error e →
       searchLocations embed idx req = Except.error e) := by
  constructor
  · intro e h
    simp [searchLocations, h]
  · intro vec e h1 h2
    simp [searchLocations, h1, h2]

/-- C7 witness: a failing embedding stub and a failing index stub each
abort the whole search with their error. -/
theorem c7_witness :
    searchLocations (fun _ => Except.error "EmbeddingFailed")
        (fun _ _ _ => Except.ok []) { query := "romantic" } =
      Except.error "EmbeddingFailed" ∧
    searchLocations (fun _ => Except.ok [])
        (fun _ _ _ => Except.error "IndexQueryFailed") { query := "romantic" } =
      Except.error "IndexQueryFailed" :=
  ⟨(c7_failure_atomicity _ _ _).1 _ rfl, (c7_failure_atomicity _ _ _).2 [] _ rfl rfl⟩

/-! ### C9 — only keyword-matching locations are returned -/

/-- C9: every in-memory result has a strictly positive similarity score,
and some whitespace-separated word of the lowercased query occurs in the
result's combined name/description/tags/category text — locations matching
no query word are never returned. -/
theorem c9_positive_scores (L : List Location) (q : String)
    (f : Option SearchFilters) (r : SearchResult)
    (hr : r ∈ (performInMemorySearch L q f).results) :
    0 < r.similarityScore ∧
    ∃ w ∈ splitOnSpace (toLowerL q.toList), hasSub (resultSearchText r) w = true := by
  rw [performInMemorySearch_results] at hr
  obtain ⟨hpred, loc, hloc, heq⟩ := mem_inMemoryResults hr
  have hne : ¬ (r.similarityScore = 0) := by
    simp only [searchFilterPred, Bool.and_eq_true, Bool.not_eq_true',
      beq_eq_false_iff_ne] at hpred
    exact hpred.1.1.1.1
  have hscore : r.similarityScore =
      mkRat (matchCountOf (splitOnSpace (toLowerL q.toList)) (searchText loc))
        (splitOnSpace (toLowerL q.toList)).length := by
    rw [heq]; exact rfl
  have hcpos : 0 < matchCountOf (splitOnSpace (toLowerL q.toList)) (searchText loc) := by
    rcases Nat.eq_zero_or_pos (matchCountOf (splitOnSpace (toLowerL q.toList)) (searchText loc)) with h0 | hpos
    · exact absurd (hscore.trans ((score_eq_zero_iff (splitOnSpace_length_pos _)).mpr h0)) hne
    · exact hpos
  constructor
  · exact lt_of_le_of_ne (hscore ▸ score_nonneg _ _) (fun hcon => hne hcon.symm)
  · obtain ⟨w, hw, hmatch⟩ := List.countP_pos_iff.mp hcpos
    refine ⟨w, hw, ?_⟩
    rw [show resultSearchText r = searchText loc from by rw [heq]; exact rfl]
    exact hmatch

/-- Fixture for the C9 witness: a stored location matching the query. -/
def c9Loc : Location :=
  { id := "m", name := "museum of art", description := "history",
    category := "museum", tags := [], rating := 4, reviewCount := 9,
    priceRange := "$", latitude := 3, longitude := 3, verified := true }

/-- Fixture for the C9 witness: the result the in-memory search returns. -/
def c9Res : SearchResult := mapLocation (splitOnSpace (toLowerL ("museum".toList))) c9Loc

/-- C9 witness: the concrete returned result has a strictly positive
score. -/
theorem c9_witness : 0 < c9Res.similarityScore := by
  refine (c9_positive_scores [c9Loc] "museum" none c9Res ?_).1
  rw [show (performInMemorySearch [c9Loc] "museum" none).results = [c9Res] from rfl]
  exact List.mem_singleton.mpr rfl

/-! ### Geometry lemmas for the distance helper -/

/-- Latitudes within plus or minus 90 degrees have nonnegative cosine in
radians. -/
theorem cos_toRad_nonneg {lat : ℝ} (h1 : -90 ≤ lat) (h2 : lat ≤ 90) :
    0 ≤ Real.cos (toRad lat) := by
  refine Real.cos_nonneg_of_mem_Icc ⟨?_, ?_⟩
  · simp only [toRad]
    nlinarith [Real.pi_pos]
  · simp only [toRad]
    nlinarith [Real.pi_pos]

/-- The haversine term is nonnegative for latitudes within plus or minus
90 degrees. -/
theorem haversineA_nonneg (lat1 lon1 lat2 lon2 : ℝ)
    (h1 : -90 ≤ lat1) (h2 : lat1 ≤ 90) (h3 : -90 ≤ lat2) (h4 : lat2 ≤ 90) :
    0 ≤ haversineA lat1 lon1 lat2 lon2 := by
  have hc1 := cos_toRad_nonneg h1 h2
  have hc2 := cos_toRad_nonneg h3 h4
  simp only [haversineA]
  have hs1 := mul_self_nonneg (Real.sin (toRad (lat2 - lat1) / 2))
  have hs2 := mul_self_nonneg (Real.sin (toRad (lon2 - lon1) / 2))
  nlinarith [mul_nonneg (mul_nonneg hc1 hc2) hs2]

/-- Key trigonometric bound: the haversine combination never exceeds one
when both latitude cosines are nonnegative. -/
theorem sin_half_sq_add_coscos_le_one (x y D : ℝ)
    (hx : 0 ≤ Real.cos x) (hy : 0 ≤ Real.cos y) :
    Real.sin ((y - x) / 2) * Real.sin ((y - x) / 2) +
      Real.cos x * Real.cos y * (Real.sin D * Real.sin D) ≤ 1 := by
  have hhalf : Real.cos (y - x) =
      1 - 2 * (Real.sin ((y - x) / 2) * Real.sin ((y - x) / 2)) := by
    have hc := Real.cos_add ((y - x) / 2) ((y - x) / 2)
    have hp := Real.sin_sq_add_cos_sq ((y - x) / 2)
    have harg : (y - x) / 2 + (y - x) / 2 = y - x := by ring
    rw [harg] at hc
    linear_combination hc + hp
  have hcs : Real.cos (y - x) = Real.cos x * Real.cos y + Real.sin x * Real.sin y := by
    linear_combination Real.cos_sub y x
  have hS := Real.cos_add x y
  have hsin2 : Real.sin D * Real.sin D ≤ 1 := by
    have h := Real.sin_sq_le_one D
    rw [pow_two] at h
    exact h
  have hcos1 := Real.cos_le_one (x + y)
  nlinarith [mul_nonneg (mul_nonneg hx hy)
    (by linarith : (0 : ℝ) ≤ 1 - Real.sin D * Real.sin D)]

/-- The haversine term is at most one for latitudes within plus or minus
90 degrees. -/
theorem haversineA_le_one (lat1 lon1 lat2 lon2 : ℝ)
    (h1 : -90 ≤ lat1) (h2 : lat1 ≤ 90) (h3 : -90 ≤ lat2) (h4 : lat2 ≤ 90) :
    haversineA lat1 lon1 lat2 lon2 ≤ 1 := by
  have hc1 := cos_toRad_nonneg h1 h2
  have hc2 := cos_toRad_nonneg h3 h4
  have hlin : toRad (lat2 - lat1) = toRad lat2 - toRad lat1 := by
    simp only [toRad]; ring
  simp only [haversineA, hlin]
  exact sin_half_sq_add_coscos_le_one (toRad lat1) (toRad lat2)
    (toRad (lon2 - lon1) / 2) hc1 hc2

/-- `Math.atan2` is nonnegative in the closed first quadrant. -/
theorem atan2_nonneg {y x : ℝ} (hy : 0 ≤ y) (hx : 0 ≤ x) : 0 ≤ atan2 y x := by
  simp only [atan2]
  by_cases h1 : 0 < x
  · rw [if_pos h1]
    have hdiv : (0 : ℝ) ≤ y / x := div_nonneg hy hx
    have harc := Real.arctan_strictMono.monotone hdiv
    rwa [Real.arctan_zero] at harc
  · rw [if_neg h1, if_neg (not_lt.mpr hx)]
    by_cases h2 : 0 < y
    · rw [if_pos h2]
      linarith [Real.pi_pos]
    · rw [if_neg h2, if_neg (not_lt.mpr hy)]

/-- On arguments built from square roots of a number in `[0, 1]`, the
code's `atan2` form agrees with the arcsine form of the haversine
formula. -/
theorem atan2_sqrt_eq_arcsin {a : ℝ} (h0 : 0 ≤ a) (h1 : a ≤ 1) :
    atan2 (Real.sqrt a) (Real.sqrt (1 - a)) = Real.arcsin (Real.sqrt a) := by
  rcases lt_or_eq_of_le h1 with hlt | heq
  · have hx : 0 < Real.sqrt (1 - a) := Real.sqrt_pos.mpr (by linarith)
    simp only [atan2]
    rw [if_pos hx]
    have hmem : Real.sqrt a ∈ Set.Ioo (-1 : ℝ) 1 := by
      constructor
      · linarith [Real.sqrt_nonneg a]
      · calc Real.sqrt a < Real.sqrt 1 := Real.sqrt_lt_sqrt h0 hlt
          _ = 1 := Real.sqrt_one
    rw [Real.arcsin_eq_arctan hmem, Real.sq_sqrt h0]
  · subst heq
    norm_num [atan2, Real.sqrt_zero, Real.sqrt_one, Real.arcsin_one]

/-- `Math.round(x*10)/10` stays nonnegative on nonnegative inputs. -/
theorem round1_nonneg {x : ℝ} (hx : 0 ≤ x) : 0 ≤ round1 x := by
  simp only [round1]
  refine div_nonneg ?_ (by norm_num)
  have h : (0 : ℤ) ≤ round (x * 10) := by
    rw [round_eq]
    refine Int.floor_nonneg.mpr ?_
    nlinarith
  exact_mod_cast h

/-- Swapping both coordinate pairs leaves the haversine term unchanged. -/
theorem haversineA_comm (lat1 lon1 lat2 lon2 : ℝ) :
    haversineA lat2 lon2 lat1 lon1 = haversineA lat1 lon1 lat2 lon2 := by
  have hneg : ∀ u v : ℝ, Real.sin (toRad (u - v) / 2) * Real.sin (toRad (u - v) / 2) =
      Real.sin (toRad (v - u) / 2) * Real.sin (toRad (v - u) / 2) := by
    intro u v
    have h : toRad (u - v) / 2 = -(toRad (v - u) / 2) := by
      simp only [toRad]; ring
    rw [h, Real.sin_neg]
    ring
  simp only [haversineA]
  rw [hneg lat1 lat2, hneg lon1 lon2]
  ring

/-! ### C10 — symmetry and nonnegativity of the distance helper -/

/-- C10: the distance helper is symmetric in its two coordinate pairs,
always nonnegative, and zero from a point to itself. -/
theorem c10_distance_symmetric_nonneg (lat1 lon1 lat2 lon2 : ℝ) :
    calculateDistance lat1 lon1 lat2 lon2 = calculateDistance lat2 lon2 lat1 lon1 ∧
    0 ≤ calculateDistance lat1 lon1 lat2 lon2 ∧
    calculateDistance lat1 lon1 lat1 lon1 = 0 := by
  refine ⟨?_, ?_, ?_⟩
  · simp only [calculateDistance]
    rw [haversineA_comm]
  · apply round1_nonneg
    have h := atan2_nonneg (Real.sqrt_nonneg (haversineA lat1 lon1 lat2 lon2))
      (Real.sqrt_nonneg (1 - haversineA lat1 lon1 lat2 lon2))
    nlinarith
  · have ha : haversineA lat1 lon1 lat1 lon1 = 0 := by
      simp only [haversineA, sub_self, toRad, zero_mul, zero_div, Real.sin_zero]
      ring
    simp only [calculateDistance, ha, Real.sqrt_zero, sub_zero, Real.sqrt_one]
    norm_num [atan2, Real.arctan_zero, round1]

/-! ### C3 — distance augmentation -/

/-- Fixture for the C3 counterexample: a stored record on the equator,
latitude exactly 0 — a perfectly valid coordinate that JavaScript
truthiness treats as absent. -/
def c3Loc : Location :=
  { id := "eq", name := "equator point", description := "zero latitude",
    category := "landmark", tags := [], rating := 4, reviewCount := 1,
    priceRange := "$", latitude := 0, longitude := 55, verified := true }

/-- Fixture for the C3 counterexample: the index hit carrying that
record. -/
def c3Hit : Hit := { id := "1", score := mkRat 4 5, payload := c3Loc }

/-- Fixture for the C3 counterexample: a request that does supply
`userLocation`. -/
def c3Req : SearchRequest :=
  { query := "landmark", userLocation := some { lat := 25, lng := 55 } }

/-- C3 counterexample: with `userLocation` supplied and a record whose
coordinates are present and valid (latitude 0, longitude 55), the returned
result's `distance` is absent — the guard `payload.latitude &&
payload.longitude` drops latitude 0 — contradicting the claim that such a
result's distance equals the rounded haversine distance. -/
theorem c3_counterexample :
    searchLocations (fun _ => Except.ok []) (fun _ _ _ => Except.ok [c3Hit]) c3Req =
      Except.ok { results := [mapHit (some { lat := 25, lng := 55 }) c3Hit],
                  total := 1, queryTimeMs := 0,
                  suggestions := generateSearchSuggestions "landmark" } ∧
    (mapHit (some { lat := 25, lng := 55 }) c3Hit).distance = none := by
  exact ⟨rfl, rfl⟩

/-- C3 amended: the result's `distance` equals the source's rounded
haversine distance whenever `userLocation` is supplied and both stored
coordinates are truthy (nonzero); it is absent when `userLocation` is
missing or either coordinate is zero or missing; and for latitudes within
plus or minus 90 degrees the code's arctangent form computes exactly the
spec's Haversine great-circle distance (Earth radius 6371 km) rounded to
one decimal place. -/
theorem c3_distance_augmentation_amended (u : Option UserLoc) (ul : UserLoc) (hit : Hit) :
    (u = some ul → hit.payload.latitude ≠ 0 → hit.payload.longitude ≠ 0 →
       (mapHit u hit).distance = some (calculateDistance (ul.lat : ℝ) (ul.lng : ℝ)
         (hit.payload.latitude : ℝ) (hit.payload.longitude : ℝ))) ∧
    (u = none → (mapHit u hit).distance = none) ∧
    (hit.payload.latitude = 0 ∨ hit.payload.longitude = 0 →
       (mapHit u hit).distance = none) ∧
    (∀ lat1 lon1 lat2 lon2 : ℝ, -90 ≤ lat1 → lat1 ≤ 90 → -90 ≤ lat2 → lat2 ≤ 90 →
       calculateDistance lat1 lon1 lat2 lon2 = round1 (haversineSpecDist lat1 lon1 lat2 lon2)) := by
  refine ⟨?_, ?_, ?_, ?_⟩
  · intro hu hlat hlon
    subst hu
    simp only [mapHit]
    rw [if_pos ⟨hlat, hlon⟩]
  · intro hu
    subst hu
    rfl
  · intro h
    cases u with
    | none => rfl
    | some v =>
      simp only [mapHit]
      rw [if_neg (by rcases h with h | h
                     · exact fun hc => hc.1 h
                     · exact fun hc => hc.2 h)]
  · intro lat1 lon1 lat2 lon2 ha1 ha2 ha3 ha4
    have h0 := haversineA_nonneg lat1 lon1 lat2 lon2 ha1 ha2 ha3 ha4
    have h1 := haversineA_le_one lat1 lon1 lat2 lon2 ha1 ha2 ha3 ha4
    simp only [calculateDistance, haversineSpecDist]
    rw [atan2_sqrt_eq_arcsin h0 h1]
    congr 1
    ring

/-- Fixture for the C3 witness: a stored record with truthy coordinates. -/
def c3wLoc : Location :=
  { id := "w", name := "marina walk", description := "water", category := "walk",
    tags := [], rating := 5, reviewCount := 2, priceRange := "$",
    latitude := 24, longitude := 54, verified := true }

/-- Fixture for the C3 witness: the index hit carrying that record. -/
def c3wHit : Hit := { id := "2", score := mkRat 7 10, payload := c3wLoc }

/-- C3 witness: the amended augmentation rule and the formula refinement at
concrete coordinates. -/
theorem c3_witness :
    (mapHit (some { lat := 25, lng := 55 }) c3wHit).distance =
      some (calculateDistance ((25 : ℚ) : ℝ) ((55 : ℚ) : ℝ)
        ((24 : ℚ) : ℝ) ((54 : ℚ) : ℝ)) ∧
    calculateDistance 25 55 24 54 = round1 (haversineSpecDist 25 55 24 54) := by
  constructor
  · exact (c3_distance_augmentation_amended (some { lat := 25, lng := 55 })
      { lat := 25, lng := 55 } c3wHit).1 rfl (by decide) (by decide)
  · exact (c3_distance_augmentation_amended none { lat := 0, lng := 0 } c3Hit).2.2.2
      25 55 24 54 (by norm_num) (by norm_num) (by norm_num) (by norm_num)
